import Mathlib

/-!
Shallow embedding of the search-enrichment service in `app.py` (a FastAPI
handler over the `ytmusicapi` client).  Raw provider data is modelled with
optional fields (a `none` stands for an absent dictionary key, which Python
code reads through `dict.get` with a default).  Python exceptions are
modelled by the `PyExn` type and fallible code returns `Except PyExn`.
The top-level `try/except Exception` of the handler is modelled in
`search_songs`, which converts every escaping exception — including the
internally raised 404 `HTTPException` — into a 500 response, exactly as the
`except Exception as e: raise HTTPException(status_code=500, detail=str(e))`
clause does (FastAPI's `HTTPException` subclasses `Exception`).
-/

namespace MusicApi

/-- Python exceptions that can arise in the handler, with enough structure
to render the textual description `str(e)` used as the 500 detail. -/
inductive PyExn where
  | httpException (status : Nat) (detail : String)
  | keyError (key : String)
  | indexError
  | providerError (msg : String)
deriving DecidableEq, Repr

/-- The textual description `str(e)` of an exception.  Starlette's
`HTTPException` renders as `f"{status_code}: {detail}"`; `IndexError` from
`list[-1]` on an empty list renders as `list index out of range`. -/
def strOfExn : PyExn → String
  | .httpException status detail => toString status ++ ": " ++ detail
  | .keyError key => "KeyError: " ++ key
  | .indexError => "list index out of range"
  | .providerError msg => msg

/-- One entry of a raw `thumbnails` list: a dict that may carry a `url`. -/
structure RawThumb where
  url : Option String
deriving DecidableEq, Repr

/-- One entry of a raw `artists` list: a dict that may carry a `name`.
`app.py` reads it with `artist['name']`, which raises `KeyError` when the
key is absent. -/
structure RawArtist where
  name : Option String
deriving DecidableEq, Repr

/-- The nested raw `album` dict of a search result. -/
structure RawAlbum where
  name : Option String
  id : Option String
deriving DecidableEq, Repr

/-- The raw album-details dict returned by `ytmusic.get_album`. -/
structure RawAlbumDetails where
  thumbnails : Option (List RawThumb)
deriving DecidableEq, Repr

/-- One raw search result returned by `ytmusic.search`; every field may be
absent. -/
structure RawSong where
  title : Option String
  duration : Option String
  videoId : Option String
  artists : Option (List RawArtist)
  album : Option RawAlbum
  thumbnails : Option (List RawThumb)
deriving DecidableEq, Repr

/-- The `album` dict built at lines 53-57 of `app.py`. -/
structure AlbumData where
  name : String
  id : Option String
  url : String
deriving DecidableEq, Repr

/-- The `SearchResponse` pydantic model of `app.py`. -/
structure SearchResponse where
  title : String
  duration : String
  video_id : String
  artists : List String
  album : AlbumData
  youtube_music_url : String
  youtube_video_url : String
  song_thumbnail_url : String
  album_thumbnail_url : Option String
deriving DecidableEq, Repr

/-- The external `ytmusic` client: its `search` and `get_album` calls,
each of which may raise. -/
structure Provider where
  search : String → String → Int → Except PyExn (List RawSong)
  get_album : String → Except PyExn RawAlbumDetails

/-- The outcome of one HTTP request: a JSON body or an error status with a
detail string (an `HTTPException` that escapes the handler). -/
inductive HTTPResult (α : Type) where
  | ok (value : α)
  | httpError (status : Nat) (detail : String)
deriving DecidableEq, Repr

/-- Python truthiness of an optional string (`if album_id:`): false for an
absent value and for the empty string. -/
def pyTruthy : Option String → Bool
  | none => false
  | some s => s != ""

/-- `list[-1]` on a Python list: the last element, or `IndexError` when the
list is empty. -/
def pyLast {α : Type} (l : List α) : Except PyExn α :=
  match l.getLast? with
  | some x => .ok x
  | none => .error .indexError

/-- The comprehension `[artist['name'] for artist in artists]` of line 46:
each subscript raises `KeyError` when the `name` key is absent. -/
def extractArtistNames : List RawArtist → Except PyExn (List String)
  | [] => .ok []
  | a :: rest =>
    match a.name with
    | some n => (extractArtistNames rest).map (fun ns => n :: ns)
    | none => .error (.keyError "name")

/-- Lines 45-46: `artists = song.get('artists', [])` followed by
`[artist['name'] for artist in artists] if artists else ['N/A']`. -/
def artistNamesOf (song : RawSong) : Except PyExn (List String) :=
  let artists := song.artists.getD []
  if artists.isEmpty then .ok ["N/A"] else extractArtistNames artists

/-- Lines 49-57: the `album_data` dict.  The `url` is built from the f-string
when `album_id` is truthy (present and non-empty), else the sentinel. -/
def albumDataOf (song : RawSong) : AlbumData :=
  let album := song.album.getD { name := none, id := none }
  let album_id := album.id
  { name := album.name.getD "N/A"
    id := album_id
    url :=
      if pyTruthy album_id then "https://music.youtube.com/browse/" ++ album_id.getD ""
      else "N/A" }

/-- Lines 60-66: the album-thumbnail secondary lookup.  Everything inside the
`try` — the `get_album` call, the `[-1]` on the (possibly empty) thumbnail
list — is swallowed by `except Exception: pass`, leaving the value `None`;
an absent `thumbnails` key defaults to `[{}]` whose last element has no
`url`, giving `None` via `.get('url', None)`.  The function is total: no
exception escapes this block. -/
def albumThumbnail (g : String → Except PyExn RawAlbumDetails)
    (album_id : Option String) : Option String :=
  if pyTruthy album_id then
    match (do
        let details ← g (album_id.getD "")
        let lastT ← pyLast (details.thumbnails.getD [{ url := none }])
        pure lastT.url : Except PyExn (Option String)) with
    | .ok u => u
    | .error _ => none
  else none

/-- Line 69: `youtube_music_url`, built unless `video_id` equals the
sentinel. -/
def musicUrlOf (video_id : String) : String :=
  if video_id = "N/A" then "N/A" else "https://music.youtube.com/watch?v=" ++ video_id

/-- Line 70: `youtube_video_url`, built unless `video_id` equals the
sentinel. -/
def videoUrlOf (video_id : String) : String :=
  if video_id = "N/A" then "N/A" else "https://www.youtube.com/watch?v=" ++ video_id

/-- Line 73: `song.get('thumbnails', [{}])[-1].get('url', 'N/A')`.  An absent
key defaults to `[{}]`, whose last element yields the sentinel; a present but
empty list makes `[-1]` raise `IndexError`, which is NOT caught locally. -/
def songThumbnailUrl (song : RawSong) : Except PyExn String :=
  match pyLast (song.thumbnails.getD [{ url := none }]) with
  | .ok lastT => .ok (lastT.url.getD "N/A")
  | .error e => .error e

/-- Lines 42-85: mapping of one raw result to a `SearchResponse`.  The two
fallible extractions are the artist-name comprehension (line 46) and the song
thumbnail subscript (line 73), in that source order; the album-thumbnail
lookup sits between them but is total (its `try/except` swallows every
failure), so it cannot change which exception escapes. -/
def mapSong (g : String → Except PyExn RawAlbumDetails) (song : RawSong) :
    Except PyExn SearchResponse :=
  let video_id := song.videoId.getD "N/A"
  match artistNamesOf song with
  | .error e => .error e
  | .ok artist_names =>
    match songThumbnailUrl song with
    | .error e => .error e
    | .ok song_thumbnail_url =>
      .ok
        { title := song.title.getD "N/A"
          duration := song.duration.getD "N/A"
          video_id := video_id
          artists := artist_names
          album := albumDataOf song
          youtube_music_url := musicUrlOf video_id
          youtube_video_url := videoUrlOf video_id
          song_thumbnail_url := song_thumbnail_url
          album_thumbnail_url := albumThumbnail g (albumDataOf song).id }

/-- The `for song in search_results` loop of lines 41-87: build one record
per raw result in order, aborting on the first escaping exception. -/
def mapSongs (g : String → Except PyExn RawAlbumDetails) :
    List RawSong → Except PyExn (List SearchResponse)
  | [] => .ok []
  | song :: rest =>
    match mapSong g song with
    | .error e => .error e
    | .ok r =>
      match mapSongs g rest with
      | .error e => .error e
      | .ok rs => .ok (r :: rs)

/-- The `/search/` handler of lines 23-92.  The whole body runs inside
`try`; `if not search_results` raises `HTTPException(404)`; the trailing
`except Exception as e` catches every exception — the 404 `HTTPException`
included, since it subclasses `Exception` — and re-raises
`HTTPException(500, str(e))`. -/
def search_songs (yt : Provider) (query : String) (filter_type : String)
    (limit : Int) : HTTPResult (List SearchResponse) :=
  let body : Except PyExn (List SearchResponse) :=
    match yt.search query filter_type limit with
    | .error e => .error e
    | .ok search_results =>
      if search_results.isEmpty then
        .error (.httpException 404 "No results found")
      else
        mapSongs yt.get_album search_results
  match body with
  | .ok v => .ok v
  | .error e => .httpError 500 (strOfExn e)

/-! ### Concrete stub data used by counterexamples and witnesses -/

/-- An album-details stub whose lookup always raises, as in the test of the
silent-swallowing property. -/
def gFail : String → Except PyExn RawAlbumDetails :=
  fun _ => .error (.providerError "album lookup failed")

/-- An album-details stub that always succeeds with a two-element thumbnail
list whose last element carries a url. -/
def gGood : String → Except PyExn RawAlbumDetails :=
  fun _ => .ok { thumbnails := some [{ url := some "album-small" }, { url := some "album-big" }] }

/-- A provider stub returning a fixed result list from `search` and failing
every album lookup. -/
def stubProvider (results : List RawSong) : Provider :=
  { search := fun _ _ _ => .ok results
    get_album := gFail }

/-- A raw song with every key absent: each read of it in the handler goes
through its default. -/
def songAllAbsent : RawSong :=
  { title := none, duration := none, videoId := none, artists := none,
    album := none, thumbnails := none }

/-- A raw song whose single artist entry lacks the `name` key. -/
def songNoArtistName : RawSong :=
  { title := some "t", duration := some "3:00", videoId := some "v1",
    artists := some [{ name := none }], album := none,
    thumbnails := some [{ url := some "u1" }] }

/-- A raw song with a present but empty `thumbnails` list. -/
def songEmptyThumbs : RawSong :=
  { title := some "t", duration := some "3:00", videoId := some "v1",
    artists := some [{ name := some "a" }], album := none,
    thumbnails := some [] }

/-- A raw song whose album `id` key is present but holds the empty string. -/
def songEmptyAlbumId : RawSong :=
  { title := some "t", duration := some "3:00", videoId := some "v1",
    artists := some [{ name := some "a" }],
    album := some { name := some "AlbumName", id := some "" },
    thumbnails := some [{ url := some "u1" }] }

/-! ### Further concrete data for witnesses -/

/-- A well-formed raw song: every key present, two artists, two song
thumbnails, an album with a non-empty id. -/
def songFull : RawSong :=
  { title := some "Song One", duration := some "3:01", videoId := some "vid1",
    artists := some [{ name := some "Artist A" }, { name := some "Artist B" }],
    album := some { name := some "Album One", id := some "alb1" },
    thumbnails := some [{ url := some "small1" }, { url := some "big1" }] }

/-- A second well-formed raw song with a distinct album id. -/
def songFull2 : RawSong :=
  { title := some "Song Two", duration := some "2:59", videoId := some "vid2",
    artists := some [{ name := some "Artist C" }],
    album := some { name := some "Album Two", id := some "alb2" },
    thumbnails := some [{ url := some "small2" }, { url := some "big2" }] }

/-- A raw song whose upstream `videoId` is present and equals the literal
sentinel string. -/
def songSentinelVid : RawSong :=
  { title := some "t", duration := some "1:00", videoId := some "N/A",
    artists := some [{ name := some "a" }], album := none,
    thumbnails := some [{ url := some "u1" }] }

/-- The record produced for `songAllAbsent`: every field at its own
sentinel or absence. -/
def recAllAbsent : SearchResponse :=
  { title := "N/A", duration := "N/A", video_id := "N/A", artists := ["N/A"],
    album := { name := "N/A", id := none, url := "N/A" },
    youtube_music_url := "N/A", youtube_video_url := "N/A",
    song_thumbnail_url := "N/A", album_thumbnail_url := none }

/-- The record produced for `songEmptyAlbumId` under a failing album
lookup. -/
def recEmptyAlbumId : SearchResponse :=
  { title := "t", duration := "3:00", video_id := "v1", artists := ["a"],
    album := { name := "AlbumName", id := some "", url := "N/A" },
    youtube_music_url := "https://music.youtube.com/watch?v=v1",
    youtube_video_url := "https://www.youtube.com/watch?v=v1",
    song_thumbnail_url := "u1", album_thumbnail_url := none }

/-- The record produced for `songFull` when the album lookup fails. -/
def recFullFail : SearchResponse :=
  { title := "Song One", duration := "3:01", video_id := "vid1",
    artists := ["Artist A", "Artist B"],
    album := { name := "Album One", id := some "alb1",
               url := "https://music.youtube.com/browse/alb1" },
    youtube_music_url := "https://music.youtube.com/watch?v=vid1",
    youtube_video_url := "https://www.youtube.com/watch?v=vid1",
    song_thumbnail_url := "big1", album_thumbnail_url := none }

/-- The record produced for `songFull` when the album lookup succeeds via
`gGood`. -/
def recFullGood : SearchResponse :=
  { recFullFail with album_thumbnail_url := some "album-big" }

/-- The record produced for `songFull2` when the album lookup succeeds via
`gGood`. -/
def recFull2Good : SearchResponse :=
  { title := "Song Two", duration := "2:59", video_id := "vid2",
    artists := ["Artist C"],
    album := { name := "Album Two", id := some "alb2",
               url := "https://music.youtube.com/browse/alb2" },
    youtube_music_url := "https://music.youtube.com/watch?v=vid2",
    youtube_video_url := "https://www.youtube.com/watch?v=vid2",
    song_thumbnail_url := "big2", album_thumbnail_url := some "album-big" }

/-- The record produced for `songSentinelVid`. -/
def recSentinelVid : SearchResponse :=
  { title := "t", duration := "1:00", video_id := "N/A", artists := ["a"],
    album := { name := "N/A", id := none, url := "N/A" },
    youtube_music_url := "N/A", youtube_video_url := "N/A",
    song_thumbnail_url := "u1", album_thumbnail_url := none }

/-- A provider whose primary search call itself raises. -/
def searchRaisesProvider : Provider :=
  { search := fun _ _ _ => .error (.providerError "boom")
    get_album := gFail }

/-- A provider returning the two well-formed songs, with a working album
lookup. -/
def providerTwo : Provider :=
  { search := fun _ _ _ => .ok [songFull, songFull2]
    get_album := gGood }

/-! ### Helper lemmas -/

/-- Whether an `Except` computation succeeded. -/
def exceptOk {ε α : Type} : Except ε α → Bool
  | .ok _ => true
  | .error _ => false

theorem exceptOk_iff {ε α : Type} (e : Except ε α) :
    exceptOk e = true ↔ ∃ a, e = .ok a := by
  cases e <;> simp [exceptOk]

theorem extractArtistNames_ok_iff (l : List RawArtist) :
    exceptOk (extractArtistNames l) = true ↔ ∀ a ∈ l, a.name.isSome = true := by
  induction l with
  | nil => simp [extractArtistNames, exceptOk]
  | cons a rest ih =>
    constructor
    · intro h x hx
      rcases List.mem_cons.mp hx with rfl | hx
      · cases hn : x.name with
        | some n => simp
        | none => simp [extractArtistNames, hn, exceptOk] at h
      · refine ih.mp ?_ x hx
        cases hn : a.name with
        | none => simp [extractArtistNames, hn, exceptOk] at h
        | some n =>
          cases hr : extractArtistNames rest with
          | error e => simp [extractArtistNames, hn, hr, Except.map, exceptOk] at h
          | ok ns => simp [hr, exceptOk]
    · intro h
      cases hn : a.name with
      | none =>
        have := h a (List.mem_cons_self a rest)
        simp [hn] at this
      | some n =>
        have hrest : exceptOk (extractArtistNames rest) = true :=
          ih.mpr (fun x hx => h x (List.mem_cons_of_mem a hx))
        cases hr : extractArtistNames rest with
        | error e => simp [hr, exceptOk] at hrest
        | ok ns => simp [extractArtistNames, hn, hr, Except.map, exceptOk]

theorem extractArtistNames_get {l : List RawArtist} {ns : List String}
    (h : extractArtistNames l = .ok ns) :
    ns.length = l.length ∧
    ∀ i (hi : i < l.length) (hi2 : i < ns.length),
      (l.get ⟨i, hi⟩).name = some (ns.get ⟨i, hi2⟩) := by
  induction l generalizing ns with
  | nil =>
    simp only [extractArtistNames] at h
    cases h
    simp
  | cons a rest ih =>
    cases hn : a.name with
    | none => simp [extractArtistNames, hn] at h
    | some n =>
      cases hr : extractArtistNames rest with
      | error e => simp [extractArtistNames, hn, hr, Except.map] at h
      | ok tail =>
        simp only [extractArtistNames, hn, hr, Except.map] at h
        cases h
        obtain ⟨hlen, hget⟩ := ih hr
        refine ⟨by simp [hlen], ?_⟩
        intro i hi hi2
        cases i with
        | zero => simp [hn]
        | succ j =>
          simp only [List.get_cons_succ]
          exact hget j (by simpa using hi) (by simpa using hi2)

theorem artistNamesOf_empty {song : RawSong}
    (h : song.artists.getD [] = []) : artistNamesOf song = .ok ["N/A"] := by
  simp [artistNamesOf, h]

theorem artistNamesOf_nonempty {song : RawSong} {l : List RawArtist}
    (h : song.artists = some l) (hne : l ≠ []) :
    artistNamesOf song = extractArtistNames l := by
  simp [artistNamesOf, h, List.isEmpty_iff, hne]

theorem songThumbnailUrl_absent {song : RawSong} (h : song.thumbnails = none) :
    songThumbnailUrl song = .ok "N/A" := by
  simp [songThumbnailUrl, h, pyLast]

theorem songThumbnailUrl_last {song : RawSong} {l : List RawThumb} {t : RawThumb}
    (h : song.thumbnails = some l) (h2 : l.getLast? = some t) :
    songThumbnailUrl song = .ok (t.url.getD "N/A") := by
  simp [songThumbnailUrl, h, pyLast, h2]

theorem songThumbnailUrl_empty {song : RawSong} (h : song.thumbnails = some []) :
    songThumbnailUrl song = .error .indexError := by
  simp [songThumbnailUrl, h, pyLast]

theorem albumThumbnail_not_truthy {g : String → Except PyExn RawAlbumDetails}
    {aid : Option String} (h : pyTruthy aid = false) :
    albumThumbnail g aid = none := by
  simp [albumThumbnail, h]

theorem albumThumbnail_lookup_fails {g : String → Except PyExn RawAlbumDetails}
    {aid : String} {e : PyExn} (ha : aid ≠ "") (h : g aid = .error e) :
    albumThumbnail g (some aid) = none := by
  simp [albumThumbnail, pyTruthy, bne_iff_ne, ha, h, bind, Except.bind]

theorem albumThumbnail_lookup_ok {g : String → Except PyExn RawAlbumDetails}
    {aid : String} {d : RawAlbumDetails} {l : List RawThumb} {t : RawThumb}
    (ha : aid ≠ "") (h : g aid = .ok d) (hl : d.thumbnails = some l)
    (hlast : l.getLast? = some t) :
    albumThumbnail g (some aid) = t.url := by
  simp [albumThumbnail, pyTruthy, bne_iff_ne, ha, h, hl, pyLast, hlast, bind,
    Except.bind, Functor.map, Except.map, pure, Except.pure]

theorem mapSong_ok {g : String → Except PyExn RawAlbumDetails}
    {song : RawSong} {r : SearchResponse} (h : mapSong g song = .ok r) :
    artistNamesOf song = .ok r.artists ∧
    songThumbnailUrl song = .ok r.song_thumbnail_url ∧
    r.title = song.title.getD "N/A" ∧
    r.duration = song.duration.getD "N/A" ∧
    r.video_id = song.videoId.getD "N/A" ∧
    r.album = albumDataOf song ∧
    r.youtube_music_url = musicUrlOf (song.videoId.getD "N/A") ∧
    r.youtube_video_url = videoUrlOf (song.videoId.getD "N/A") ∧
    r.album_thumbnail_url = albumThumbnail g (albumDataOf song).id := by
  cases hA : artistNamesOf song with
  | error e => simp [mapSong, hA] at h
  | ok ns =>
    cases hT : songThumbnailUrl song with
    | error e => simp [mapSong, hA, hT] at h
    | ok st =>
      simp only [mapSong, hA, hT, Except.ok.injEq] at h
      subst h
      exact ⟨rfl, rfl, rfl, rfl, rfl, rfl, rfl, rfl, rfl⟩

theorem artistNamesOf_ok_iff (song : RawSong) :
    exceptOk (artistNamesOf song) = true ↔
      ∀ a ∈ song.artists.getD [], a.name.isSome = true := by
  rcases eq_or_ne (song.artists.getD []) [] with hl | hl
  · simp [artistNamesOf_empty hl, hl, exceptOk]
  · cases hs : song.artists with
    | none => simp [hs] at hl
    | some l =>
      simp only [hs, Option.getD_some] at hl ⊢
      rw [artistNamesOf_nonempty hs hl]
      exact extractArtistNames_ok_iff l

theorem songThumbnailUrl_ok_iff (song : RawSong) :
    exceptOk (songThumbnailUrl song) = true ↔ song.thumbnails ≠ some [] := by
  cases hl : song.thumbnails with
  | none => simp [songThumbnailUrl_absent hl, exceptOk]
  | some l =>
    rcases eq_or_ne l [] with rfl | hne
    · simp [songThumbnailUrl_empty hl, exceptOk]
    · rw [songThumbnailUrl_last hl (List.getLast?_eq_getLast_of_ne_nil hne)]
      simp [exceptOk, hne]

theorem mapSong_ok_iff (g : String → Except PyExn RawAlbumDetails)
    (song : RawSong) :
    exceptOk (mapSong g song) = true ↔
      (∀ a ∈ song.artists.getD [], a.name.isSome = true) ∧
      song.thumbnails ≠ some [] := by
  rw [← artistNamesOf_ok_iff, ← songThumbnailUrl_ok_iff]
  cases hA : artistNamesOf song with
  | error e => simp [mapSong, hA, exceptOk]
  | ok ns =>
    cases hT : songThumbnailUrl song with
    | error e => simp [mapSong, hA, hT, exceptOk]
    | ok st => simp [mapSong, hA, hT, exceptOk]

/-! ### Claim theorems -/

/-- Claim C1. The claim states that an empty provider result set makes the
service respond with the NotFound condition (404).  The code instead
responds 500: the `raise HTTPException(status_code=404, ...)` at line 37
sits inside the `try` block, and the `except Exception` clause at line 91
catches `HTTPException` (a subclass of `Exception`) and re-raises it as
`HTTPException(500, str(e))`.  This theorem evaluates the handler at the
failing input: the response is a 500 carrying the stringified 404, and is
not a 404 for any detail string. -/
theorem C1_empty_results_yield_500_not_404 :
    search_songs (stubProvider []) "example song" "songs" 5 =
      .httpError 500 "404: No results found" ∧
    ∀ d : String, search_songs (stubProvider []) "example song" "songs" 5 ≠
      .httpError 404 d := by
  refine ⟨rfl, fun d h => ?_⟩
  have h2 : (HTTPResult.httpError 500 "404: No results found" :
      HTTPResult (List SearchResponse)) = .httpError 404 d := h
  injection h2 with hs hd
  exact absurd hs (by decide)

/-- Claim C2, counterexample. A raw result whose single artist entry lacks
the `name` key aborts construction: `artist['name']` raises `KeyError`,
which escapes the per-result mapping and fails the whole request with a
500 — the request does not succeed. -/
theorem C2_counterexample :
    mapSong gFail songNoArtistName = .error (.keyError "name") ∧
    search_songs (stubProvider [songNoArtistName]) "q" "songs" 5 =
      .httpError 500 "KeyError: name" :=
  ⟨rfl, rfl⟩

/-- Claim C2, amended. Fields read through `dict.get` defaults (title,
duration, videoId, album name and id, absent artists, absent thumbnails)
each degrade independently to their own sentinel or absence — a raw result
with every key absent still maps to a full sentinel record.  But the
mapping of a raw result succeeds exactly when every artist entry carries a
`name` and the `thumbnails` list is not present-but-empty: an artist entry
without a name (KeyError) or a present empty thumbnails list (IndexError)
aborts the whole request. -/
theorem C2_amended_field_defaults (g : String → Except PyExn RawAlbumDetails) :
    mapSong g songAllAbsent = .ok recAllAbsent ∧
    ∀ song : RawSong, exceptOk (mapSong g song) = true ↔
      ((∀ a ∈ song.artists.getD [], a.name.isSome = true) ∧
       song.thumbnails ≠ some []) :=
  ⟨rfl, fun song => mapSong_ok_iff g song⟩

/-- Claim C2, witness for the amended theorem: evaluated at `gFail` and the
all-absent raw song, the mapping succeeds. -/
theorem C2_amended_witness :
    exceptOk (mapSong gFail songAllAbsent) = true :=
  ((C2_amended_field_defaults gFail).2 songAllAbsent).mpr (by decide)

/-- Claim C3, counterexample. For a raw result with a present but empty
`thumbnails` list, `song.get('thumbnails', [{}])[-1]` raises `IndexError`:
the mapped thumbnailUrl is not the sentinel — no record is built at all
and the request fails with a 500. -/
theorem C3_counterexample :
    mapSong gFail songEmptyThumbs = .error .indexError ∧
    search_songs (stubProvider [songEmptyThumbs]) "q" "songs" 5 =
      .httpError 500 "list index out of range" :=
  ⟨rfl, rfl⟩

/-- Claim C3, amended. For every raw result that maps successfully, the
mapped `song_thumbnail_url` equals the `url` of the last element of the
`thumbnails` list when that list is non-empty (the sentinel when that last
element lacks a `url`), and equals the sentinel when the list is absent; a
present-but-empty list never maps successfully (it raises `IndexError`,
aborting the request). -/
theorem C3_amended_thumbnail_url (g : String → Except PyExn RawAlbumDetails)
    (song : RawSong) (r : SearchResponse) (h : mapSong g song = .ok r) :
    (song.thumbnails = none → r.song_thumbnail_url = "N/A") ∧
    (∀ l t, song.thumbnails = some l → l.getLast? = some t →
        r.song_thumbnail_url = t.url.getD "N/A") ∧
    song.thumbnails ≠ some [] := by
  obtain ⟨-, hT, -⟩ := mapSong_ok h
  refine ⟨?_, ?_, ?_⟩
  · intro hn
    rw [songThumbnailUrl_absent hn] at hT
    exact (Except.ok.inj hT).symm
  · intro l t hl hlast
    rw [songThumbnailUrl_last hl hlast] at hT
    exact (Except.ok.inj hT).symm
  · intro hcon
    rw [songThumbnailUrl_empty hcon] at hT
    cases hT

/-- Claim C3, witness for the amended theorem: evaluated on the all-absent
song (absent list, sentinel) and on `songFull` (last of a two-element
list). -/
theorem C3_amended_witness :
    recAllAbsent.song_thumbnail_url = "N/A" ∧
    recFullFail.song_thumbnail_url = Option.getD (some "big1") "N/A" :=
  ⟨(C3_amended_thumbnail_url gFail songAllAbsent recAllAbsent rfl).1 rfl,
   (C3_amended_thumbnail_url gFail songFull
      recFullFail rfl).2.1 [{ url := some "small1" }, { url := some "big1" }]
      { url := some "big1" } rfl rfl⟩

/-- Claim C4, counterexample. A raw result whose `album.id` key is present
but holds the empty string maps to a record whose `album.id` is present,
yet whose `album.url` is the sentinel, not the concatenation: the code
guards the f-string with Python truthiness (`if album_id`), which is false
for the empty string. -/
theorem C4_counterexample :
    mapSong gFail songEmptyAlbumId = .ok recEmptyAlbumId ∧
    recEmptyAlbumId.album.id = some "" ∧
    recEmptyAlbumId.album.url = "N/A" ∧
    recEmptyAlbumId.album.url ≠ "https://music.youtube.com/browse/" ++ "" :=
  ⟨rfl, rfl, rfl, by decide⟩

/-- Claim C4, amended. For every raw result that maps successfully, the
mapped `album.id` is the raw `album.id`; when that id is present and
non-empty (Python-truthy), `album.url` is the concatenation
`https://music.youtube.com/browse/` ++ id; when it is absent or the empty
string, `album.url` is the sentinel. -/
theorem C4_amended_album_url (g : String → Except PyExn RawAlbumDetails)
    (song : RawSong) (r : SearchResponse) (h : mapSong g song = .ok r) :
    r.album.id = (song.album.getD { name := none, id := none }).id ∧
    (∀ s, (song.album.getD { name := none, id := none }).id = some s → s ≠ "" →
        r.album.url = "https://music.youtube.com/browse/" ++ s) ∧
    ((song.album.getD { name := none, id := none }).id = none ∨
        (song.album.getD { name := none, id := none }).id = some "" →
        r.album.url = "N/A") := by
  obtain ⟨-, -, -, -, -, halb, -, -, -⟩ := mapSong_ok h
  rw [halb]
  refine ⟨rfl, ?_, ?_⟩
  · intro s hs hne
    simp [albumDataOf, hs, pyTruthy, bne_iff_ne, hne]
  · rintro (hs | hs) <;> simp [albumDataOf, hs, pyTruthy]

/-- Claim C4, witness for the amended theorem: evaluated on `songFull`
(album id present and non-empty) and on the all-absent song (album id
absent). -/
theorem C4_amended_witness :
    recFullFail.album.url = "https://music.youtube.com/browse/" ++ "alb1" ∧
    recAllAbsent.album.url = "N/A" :=
  ⟨(C4_amended_album_url gFail songFull recFullFail rfl).2.1 "alb1" rfl (by decide),
   (C4_amended_album_url gFail songAllAbsent recAllAbsent rfl).2.2 (Or.inl rfl)⟩

/-- Claim C5. For every raw result that maps successfully: when `videoId`
is absent the mapped `video_id` and both service URLs are the sentinel;
when `videoId` is present and non-sentinel, both service URLs are built
from the two fixed templates. -/
theorem C5_video_urls (g : String → Except PyExn RawAlbumDetails)
    (song : RawSong) (r : SearchResponse) (h : mapSong g song = .ok r) :
    (song.videoId = none →
        r.video_id = "N/A" ∧ r.youtube_music_url = "N/A" ∧
        r.youtube_video_url = "N/A") ∧
    (∀ v, song.videoId = some v → v ≠ "N/A" →
        r.youtube_music_url = "https://music.youtube.com/watch?v=" ++ v ∧
        r.youtube_video_url = "https://www.youtube.com/watch?v=" ++ v) := by
  obtain ⟨-, -, -, -, hvid, -, hm, hv, -⟩ := mapSong_ok h
  constructor
  · intro hnone
    rw [hvid, hm, hv, hnone]
    simp [musicUrlOf, videoUrlOf]
  · intro v hs hne
    rw [hm, hv, hs]
    simp [musicUrlOf, videoUrlOf, hne]

/-- Claim C5, witness: evaluated on the all-absent song (absent `videoId`)
and on `songFull` (`videoId` present, non-sentinel). -/
theorem C5_witness :
    recAllAbsent.youtube_music_url = "N/A" ∧
    recFullFail.youtube_music_url = "https://music.youtube.com/watch?v=" ++ "vid1" ∧
    recFullFail.youtube_video_url = "https://www.youtube.com/watch?v=" ++ "vid1" :=
  ⟨((C5_video_urls gFail songAllAbsent recAllAbsent rfl).1 rfl).2.1,
   (C5_video_urls gFail songFull recFullFail rfl).2 "vid1" rfl (by decide)⟩

/-- Claim C6. For every raw result that maps successfully, the mapped
`artists` is never empty; it equals `["N/A"]` when the raw list is absent
or empty, and otherwise holds exactly one name per credited artist, in
order. -/
theorem C6_artists (g : String → Except PyExn RawAlbumDetails)
    (song : RawSong) (r : SearchResponse) (h : mapSong g song = .ok r) :
    r.artists ≠ [] ∧
    (song.artists.getD [] = [] → r.artists = ["N/A"]) ∧
    (∀ l, song.artists = some l → l ≠ [] →
        r.artists.length = l.length ∧
        ∀ i (hi : i < l.length) (hi2 : i < r.artists.length),
          (l.get ⟨i, hi⟩).name = some (r.artists.get ⟨i, hi2⟩)) := by
  obtain ⟨hA, -⟩ := mapSong_ok h
  have hempty : song.artists.getD [] = [] → r.artists = ["N/A"] := by
    intro he
    rw [artistNamesOf_empty he] at hA
    exact (Except.ok.inj hA).symm
  have hfull : ∀ l, song.artists = some l → l ≠ [] →
      r.artists.length = l.length ∧
      ∀ i (hi : i < l.length) (hi2 : i < r.artists.length),
        (l.get ⟨i, hi⟩).name = some (r.artists.get ⟨i, hi2⟩) := by
    intro l hs hne
    rw [artistNamesOf_nonempty hs hne] at hA
    exact extractArtistNames_get hA
  refine ⟨?_, hempty, hfull⟩
  rcases eq_or_ne (song.artists.getD []) [] with he | he
  · rw [hempty he]
    simp
  · cases hs : song.artists with
    | none => rw [hs] at he; simp at he
    | some l =>
      rw [hs, Option.getD_some] at he
      have hlen := (hfull l hs he).1
      intro hnil
      rw [hnil] at hlen
      exact he (List.eq_nil_of_length_eq_zero hlen.symm)

/-- Claim C6, witness: evaluated on the all-absent song (absent artists)
and on `songFull` (two credited artists, order preserved). -/
theorem C6_witness :
    recAllAbsent.artists = ["N/A"] ∧
    recFullFail.artists.length =
      ([{ name := some "Artist A" }, { name := some "Artist B" }] : List RawArtist).length :=
  ⟨(C6_artists gFail songAllAbsent recAllAbsent rfl).2.1 rfl,
   ((C6_artists gFail songFull recFullFail rfl).2.2
      [{ name := some "Artist A" }, { name := some "Artist B" }] rfl
      (by decide)).1⟩

/-- Claim C7. First: whether the mapping of a raw result succeeds does not
depend on the album-detail lookup at all — any failure there is swallowed
and no exception escapes.  Second: for a raw result with a present,
non-empty album id that maps successfully, a failing lookup leaves
`album_thumbnail_url` absent, and a successful lookup whose thumbnail list
is non-empty with a `url` on its last element yields exactly that url. -/
theorem C7_album_lookup_swallowed :
    (∀ (g g2 : String → Except PyExn RawAlbumDetails) (song : RawSong),
        exceptOk (mapSong g song) = exceptOk (mapSong g2 song)) ∧
    (∀ (g : String → Except PyExn RawAlbumDetails) (song : RawSong)
        (r : SearchResponse) (aid : String), mapSong g song = .ok r →
        (song.album.getD { name := none, id := none }).id = some aid → aid ≠ "" →
        ((∀ e, g aid = .error e → r.album_thumbnail_url = none) ∧
         (∀ d l t u, g aid = .ok d → d.thumbnails = some l →
            l.getLast? = some t → t.url = some u →
            r.album_thumbnail_url = some u))) := by
  constructor
  · intro g g2 song
    have h1 := mapSong_ok_iff g song
    have h2 := mapSong_ok_iff g2 song
    by_cases hc : (∀ a ∈ song.artists.getD [], a.name.isSome = true) ∧
        song.thumbnails ≠ some []
    · rw [h1.mpr hc, h2.mpr hc]
    · have e1 : exceptOk (mapSong g song) = false := by
        cases hb : exceptOk (mapSong g song)
        · rfl
        · exact absurd (h1.mp hb) hc
      have e2 : exceptOk (mapSong g2 song) = false := by
        cases hb : exceptOk (mapSong g2 song)
        · rfl
        · exact absurd (h2.mp hb) hc
      rw [e1, e2]
  · intro g song r aid h hid hne
    obtain ⟨-, -, -, -, -, -, -, -, hat⟩ := mapSong_ok h
    have hdid : (albumDataOf song).id = some aid := by
      simp [albumDataOf, hid]
    rw [hat, hdid]
    constructor
    · intro e he
      exact albumThumbnail_lookup_fails hne he
    · intro d l t u hd hl hlast hu
      rw [albumThumbnail_lookup_ok hne hd hl hlast, hu]

/-- Claim C7, witness: on `songFull` (album id `alb1`), the failing lookup
`gFail` leaves the album thumbnail absent while `gGood` populates it from
the last element of its thumbnail list; the success of the mapping is
unchanged between the two. -/
theorem C7_witness :
    exceptOk (mapSong gFail songFull) = exceptOk (mapSong gGood songFull) ∧
    recFullFail.album_thumbnail_url = none ∧
    recFullGood.album_thumbnail_url = some "album-big" :=
  ⟨C7_album_lookup_swallowed.1 gFail gGood songFull,
   (C7_album_lookup_swallowed.2 gFail songFull recFullFail "alb1" rfl rfl
      (by decide)).1 (.providerError "album lookup failed") rfl,
   (C7_album_lookup_swallowed.2 gGood songFull recFullGood "alb1" rfl rfl
      (by decide)).2
      { thumbnails := some [{ url := some "album-small" }, { url := some "album-big" }] }
      [{ url := some "album-small" }, { url := some "album-big" }]
      { url := some "album-big" } "album-big" rfl rfl rfl rfl⟩

/-- Claim C8. Any exception from the primary pipeline — the provider
search call, or the per-result field extraction and mapping — is reported
as a single 500 response carrying the textual description of the original
error, with no finer distinction by cause. -/
theorem C8_internal_failure (yt : Provider) (q f : String) (lim : Int) :
    (∀ e, yt.search q f lim = .error e →
        search_songs yt q f lim = .httpError 500 (strOfExn e)) ∧
    (∀ results e, yt.search q f lim = .ok results → results ≠ [] →
        mapSongs yt.get_album results = .error e →
        search_songs yt q f lim = .httpError 500 (strOfExn e)) := by
  constructor
  · intro e he
    simp [search_songs, he]
  · intro results e hr hne hm
    cases results with
    | nil => exact absurd rfl hne
    | cons a rest => simp [search_songs, hr, hm]

/-- Claim C8, witness: a provider raising on the search call yields a 500
with its description; a provider whose single result fails mapping (artist
without a name) yields a 500 with that description. -/
theorem C8_witness :
    search_songs searchRaisesProvider "q" "songs" 5 =
      .httpError 500 (strOfExn (.providerError "boom")) ∧
    search_songs (stubProvider [songNoArtistName]) "q" "songs" 5 =
      .httpError 500 (strOfExn (.keyError "name")) :=
  ⟨(C8_internal_failure searchRaisesProvider "q" "songs" 5).1
      (.providerError "boom") rfl,
   (C8_internal_failure (stubProvider [songNoArtistName]) "q" "songs" 5).2
      [songNoArtistName] (.keyError "name") rfl (by decide) rfl⟩

theorem mapSongs_get {g : String → Except PyExn RawAlbumDetails}
    {l : List RawSong} {rs : List SearchResponse}
    (h : mapSongs g l = .ok rs) :
    rs.length = l.length ∧
    ∀ i (hi : i < l.length) (hi2 : i < rs.length),
      mapSong g (l.get ⟨i, hi⟩) = .ok (rs.get ⟨i, hi2⟩) := by
  induction l generalizing rs with
  | nil =>
    simp only [mapSongs] at h
    cases h
    simp
  | cons song rest ih =>
    cases hm : mapSong g song with
    | error e => simp [mapSongs, hm] at h
    | ok r =>
      cases hr : mapSongs g rest with
      | error e => simp [mapSongs, hm, hr] at h
      | ok tail =>
        simp only [mapSongs, hm, hr, Except.ok.injEq] at h
        cases h
        obtain ⟨hlen, hget⟩ := ih hr
        refine ⟨by simp [hlen], ?_⟩
        intro i hi hi2
        cases i with
        | zero => simpa using hm
        | succ j =>
          simp only [List.get_cons_succ]
          exact hget j (by simpa using hi) (by simpa using hi2)

/-- Claim C9. For a non-empty provider result set whose items all map
without raising, the handler returns exactly one record per raw result, in
provider order: the response list has the same length and its i-th record
is the mapping of the i-th raw result. -/
theorem C9_order_preserved (yt : Provider) (q f : String) (lim : Int)
    (results : List RawSong) (rs : List SearchResponse)
    (h1 : yt.search q f lim = .ok results) (h2 : results ≠ [])
    (h3 : mapSongs yt.get_album results = .ok rs) :
    search_songs yt q f lim = .ok rs ∧
    rs.length = results.length ∧
    ∀ i (hi : i < results.length) (hi2 : i < rs.length),
      mapSong yt.get_album (results.get ⟨i, hi⟩) = .ok (rs.get ⟨i, hi2⟩) := by
  obtain ⟨hlen, hget⟩ := mapSongs_get h3
  refine ⟨?_, hlen, hget⟩
  cases results with
  | nil => exact absurd rfl h2
  | cons a rest => simp [search_songs, h1, h3]

/-- Claim C9, witness: the end-to-end test of the spec — two well-formed
raw results with distinct album ids, query `example song`, filter `songs`,
limit 2 — yields exactly the two records in provider order. -/
theorem C9_witness :
    search_songs providerTwo "example song" "songs" 2 =
      .ok [recFullGood, recFull2Good] ∧
    ([recFullGood, recFull2Good] : List SearchResponse).length =
      ([songFull, songFull2] : List RawSong).length :=
  ⟨(C9_order_preserved providerTwo "example song" "songs" 2
      [songFull, songFull2] [recFullGood, recFull2Good] rfl (by decide) rfl).1,
   (C9_order_preserved providerTwo "example song" "songs" 2
      [songFull, songFull2] [recFullGood, recFull2Good] rfl (by decide) rfl).2.1⟩

/-- Claim C10. A raw result whose upstream `videoId` is present but equals
the literal sentinel string is indistinguishable from one with `videoId`
absent: the mapped `video_id` and both service URLs are the sentinel, and
they coincide with the fields produced for any raw result with `videoId`
absent. -/
theorem C10_sentinel_collision (g : String → Except PyExn RawAlbumDetails)
    (song : RawSong) (r : SearchResponse) (h : mapSong g song = .ok r)
    (hv : song.videoId = some "N/A") :
    r.video_id = "N/A" ∧ r.youtube_music_url = "N/A" ∧
    r.youtube_video_url = "N/A" ∧
    ∀ (g2 : String → Except PyExn RawAlbumDetails) (song2 : RawSong)
      (r2 : SearchResponse), mapSong g2 song2 = .ok r2 → song2.videoId = none →
      r2.video_id = r.video_id ∧ r2.youtube_music_url = r.youtube_music_url ∧
      r2.youtube_video_url = r.youtube_video_url := by
  obtain ⟨-, -, -, -, hvid, -, hm, hvd, -⟩ := mapSong_ok h
  have hset : r.video_id = "N/A" ∧ r.youtube_music_url = "N/A" ∧
      r.youtube_video_url = "N/A" := by
    rw [hvid, hm, hvd, hv]
    simp [musicUrlOf, videoUrlOf]
  refine ⟨hset.1, hset.2.1, hset.2.2, ?_⟩
  intro g2 song2 r2 h2 hv2
  obtain ⟨-, -, -, -, hvid2, -, hm2, hvd2, -⟩ := mapSong_ok h2
  rw [hvid2, hm2, hvd2, hv2, hset.1, hset.2.1, hset.2.2]
  simp [musicUrlOf, videoUrlOf]

/-- Claim C10, witness: evaluated on a song whose `videoId` is the literal
string sentinel, against the record of the all-absent song. -/
theorem C10_witness :
    recSentinelVid.youtube_music_url = "N/A" ∧
    recSentinelVid.youtube_video_url = "N/A" ∧
    recAllAbsent.video_id = recSentinelVid.video_id :=
  ⟨(C10_sentinel_collision gFail songSentinelVid recSentinelVid rfl rfl).2.1,
   (C10_sentinel_collision gFail songSentinelVid recSentinelVid rfl rfl).2.2.1,
   ((C10_sentinel_collision gFail songSentinelVid recSentinelVid rfl rfl).2.2.2 gFail songAllAbsent
      recAllAbsent rfl rfl).1⟩

end MusicApi
